import Mathlib

/-!
Shallow embedding of the findajob backend pipeline
(src/backend/app/tasks/search.py, src/backend/app/core/llm/google.py,
src/backend/app/core/llm/ollama.py, src/backend/app/core/llm/__init__.py,
src/backend/app/core/spiders/linkedin_api_spider.py).

Python floats are modelled as exact rationals (ℚ); a Python function that can
raise is modelled with `Except PyError`; Python dicts are modelled as
association lists with pairwise-distinct keys.
-/

set_option autoImplicit false

namespace FindAJob

/-- A raised Python exception, by kind (with the payload that matters). -/
inductive PyError where
  | zeroDivisionError
  | valueError (msg : String)
  | keyError (key : String)
  | typeError (msg : String)
  | validationError
  | httpError (status : Nat)
  deriving Repr, DecidableEq

/-! ## Scoring kernel (search.py lines 45-102) -/

/-- The loop of `calculate_skills_score` / `calculate_industries_score`:
`score = 0; for skill in job_skills: if skill in candidate_skills: score += 1`.
Membership is Python list membership: exact, case-sensitive string equality. -/
def skillsLoop (candidate_skills job_skills : List String) : Nat :=
  List.foldl
    (fun score skill => if skill ∈ candidate_skills then score + 1 else score)
    0 job_skills

/-- `calculate_skills_score` (search.py 45-53): `score / len(job_skills) * 100`.
The division raises `ZeroDivisionError` when `job_skills` is empty. -/
def calculate_skills_score (candidate_skills job_skills : List String) :
    Except PyError ℚ :=
  if job_skills.length = 0 then .error .zeroDivisionError
  else .ok ((skillsLoop candidate_skills job_skills : ℚ) / job_skills.length * 100)

/-- Lower-casing of a string, character by character (models `str.lower()`). -/
def lowerStr (s : String) : String := ⟨s.data.map Char.toLower⟩

/-- Modelled from the spec (§4.1): `skills_score` as the spec words it —
fraction of `job_skills` present case-insensitively in `candidate_skills`,
times 100, and 100 when `job_skills` is empty. Used only to compare the
spec's wording with `calculate_skills_score` from the source. -/
def skills_score_spec (candidate_skills job_skills : List String) : ℚ :=
  if job_skills = [] then 100
  else
    ((job_skills.countP
        (fun s => decide (lowerStr s ∈ candidate_skills.map lowerStr)) : ℚ)
      / job_skills.length) * 100

/-- `calculate_experience_score` (search.py 56-60):
`candidate / job * 100 if candidate < job else 100`.  The division raises
`ZeroDivisionError` when it is reached with `job = 0`. -/
def calculate_experience_score (candidate_experience job_experience : ℚ) :
    Except PyError ℚ :=
  if candidate_experience < job_experience then
    if job_experience = 0 then .error .zeroDivisionError
    else .ok (candidate_experience / job_experience * 100)
  else .ok 100

/-- A Python dict with string keys and integer values (the language maps the
LLM passes as JSON objects).  Keys of a real dict are pairwise distinct; the
theorems carry that as a `Nodup` hypothesis. -/
abbrev PyDict := List (String × Int)

/-- `d.keys()`. -/
def dictKeys (d : PyDict) : List String := d.map Prod.fst

/-- `d[k]`, defaulting to 0; the source only indexes keys present in the dict. -/
def dictGet (d : PyDict) (k : String) : Int :=
  ((d.find? (fun p => p.1 = k)).map Prod.snd).getD 0

/-- `calculate_languages_score` (search.py 75-86): over the key-set
intersection collect `100 - abs(candidate[l] - job[l])`, then
`sum(diffs) / len(job_languages.keys())` if the job map is non-empty, else 100.
The set intersection `candidate.keys() & job.keys()` is modelled as the
candidate key list filtered by membership in the job keys (the same set when
the key lists are duplicate-free, and summation is order-independent). -/
def calculate_languages_score (candidate_languages job_languages : PyDict) : ℚ :=
  let diffs : List Int :=
    ((dictKeys candidate_languages).filter
        (fun k => decide (k ∈ dictKeys job_languages))).map
      (fun language =>
        100 - |dictGet candidate_languages language - dictGet job_languages language|)
  if 0 < (dictKeys job_languages).length then
    (diffs.sum : ℚ) / ((dictKeys job_languages).length : ℚ)
  else 100

/-- The six integer components the model passes to `calculate_overall_score`
(the `scores` JSON object). -/
structure ScoresDict where
  skills : Int
  education : Int
  experience : Int
  location : Int
  industries : Int
  languages : Int
  deriving Repr, DecidableEq

/-- The `weights` dict of `calculate_overall_score` (search.py 93-100), in
its iteration order. -/
def weights : List (String × ℚ) :=
  [("skills", 3/10), ("education", 1/10), ("experience", 3/10),
   ("location", 1/20), ("industries", 1/20), ("languages", 1/5)]

/-- `scores[key]` for the six keys iterated by `weights` (a key outside the
six would raise `KeyError`; `calculate_overall_score` never looks one up). -/
def scoresItem (s : ScoresDict) : String → Int
  | "skills" => s.skills
  | "education" => s.education
  | "experience" => s.experience
  | "location" => s.location
  | "industries" => s.industries
  | "languages" => s.languages
  | _ => 0

/-- `calculate_overall_score` (search.py 89-102):
`sum(weights[key] * scores[key] for key in weights)` — no rounding. -/
def calculate_overall_score (scores : ScoresDict) : ℚ :=
  (weights.map (fun kv => kv.2 * (scoresItem scores kv.1 : ℚ))).sum

/-- Modelled from the spec (§4.1): the overall score as the spec words it —
the weighted sum rounded to the nearest integer.  Used only to compare the
spec's wording with `calculate_overall_score` from the source. -/
def overall_score_spec (scores : ScoresDict) : Int :=
  round ((3/10 : ℚ) * scores.skills + (1/10 : ℚ) * scores.education
    + (3/10 : ℚ) * scores.experience + (1/20 : ℚ) * scores.location
    + (1/20 : ℚ) * scores.industries + (1/5 : ℚ) * scores.languages)

/-! ## Tool registry and dispatch (search.py 21-42, 288-295; google.py 92-95) -/

/-- Split a character list at each dash (models `"%Y-%m"` field separation
of `datetime.strptime`). -/
def splitDashAux : List Char → List Char → List (List Char)
  | [], cur => [cur.reverse]
  | c :: cs, cur =>
      if c = '-' then cur.reverse :: splitDashAux cs []
      else splitDashAux cs (c :: cur)

/-- Decimal value of a digit list. -/
def digitsVal (l : List Char) : Nat :=
  List.foldl (fun n c => n * 10 + (c.toNat - 48)) 0 l

/-- `datetime.strptime(s, "%Y-%m")`, restricted to the year and month fields:
`%Y` matches exactly four digits, `%m` one or two digits naming a month in
1..12, the two separated by a dash with nothing left over; year 0000 is
rejected by the `datetime` constructor.  Returns `none` where `strptime`
raises `ValueError`. -/
def parseYearMonth (s : String) : Option (Int × Int) :=
  match splitDashAux s.data [] with
  | [y, m] =>
      if y.length = 4 ∧ y.all Char.isDigit ∧
          (m.length = 1 ∨ m.length = 2) ∧ m.all Char.isDigit then
        let yn := digitsVal y
        let mn := digitsVal m
        if 1 ≤ yn ∧ 1 ≤ mn ∧ mn ≤ 12 then some ((yn : Int), (mn : Int))
        else none
      else none
  | _ => none

/-- `calculate_month_between` (search.py 21-42): parse both dates, return
`(end.year - start.year) * 12 + (end.month - start.month)`; on a parse
failure re-raise `ValueError` with the message built from both inputs. -/
def calculate_month_between (start_date end_date : String) : Except PyError Int :=
  match parseYearMonth start_date, parseYearMonth end_date with
  | some s, some e => .ok ((e.1 - s.1) * 12 + (e.2 - s.2))
  | _, _ =>
      .error (.valueError
        ("Invalid date format. Expected YYYY-MM, got: "
          ++ start_date ++ " and " ++ end_date))

/-- The argument payload of one model-issued tool call, by shape.  A payload
whose shape does not match the tool it is sent to models a keyword-argument
mismatch (Python raises `TypeError` at the call). -/
inductive ToolArgs where
  | monthBetween (start_date end_date : String)
  | overall (scores : ScoresDict)
  | skills (candidate_skills job_skills : List String)
  | experience (candidate_experience job_experience : ℚ)
  | industries (candidate_industries job_industries : List String)
  | languages (candidate_languages job_languages : PyDict)
  deriving Repr

/-- One tool call requested by the model (`tool.name`, `tool.args`). -/
structure ToolCall where
  name : String
  args : ToolArgs
  deriving Repr

/-- A value returned by a tool. -/
inductive ToolResult where
  | int (i : Int)
  | rat (q : ℚ)
  deriving Repr, DecidableEq

/-- The keys of the `callable_tools` dict (search.py 288-295). -/
def callable_tools_names : List String :=
  ["calculate_month_between", "calculate_overall_score",
   "calculate_skills_score", "calculate_experience_score",
   "calculate_industries_score", "calculate_languages_score"]

/-- `callable_tools[name](**args)` (google.py 94-95): dict lookup by key —
an unknown name raises `KeyError` — then a direct call with the model's
arguments; no validation against the declared schema happens anywhere on
the way, so an exception inside the tool propagates. -/
def callTool (name : String) (args : ToolArgs) : Except PyError ToolResult :=
  if name = "calculate_month_between" then
    match args with
    | .monthBetween s e => (calculate_month_between s e).map .int
    | _ => .error (.typeError "unexpected keyword arguments")
  else if name = "calculate_overall_score" then
    match args with
    | .overall scores => .ok (.rat (calculate_overall_score scores))
    | _ => .error (.typeError "unexpected keyword arguments")
  else if name = "calculate_skills_score" then
    match args with
    | .skills c j => (calculate_skills_score c j).map .rat
    | _ => .error (.typeError "unexpected keyword arguments")
  else if name = "calculate_experience_score" then
    match args with
    | .experience c j => (calculate_experience_score c j).map .rat
    | _ => .error (.typeError "unexpected keyword arguments")
  else if name = "calculate_industries_score" then
    match args with
    | .industries c j => (calculate_skills_score c j).map .rat
    | _ => .error (.typeError "unexpected keyword arguments")
  else if name = "calculate_languages_score" then
    match args with
    | .languages c j => .ok (.rat (calculate_languages_score c j))
    | _ => .error (.typeError "unexpected keyword arguments")
  else .error (.keyError name)

/-- The tool-dispatch phase of one `agent` round trip (google.py 92-95):
`for tool in use_tools: tools_response[tool.name] = callable_tools[tool.name](**tool.args)`.
There is no surrounding `try`: the first exception aborts the loop and
propagates out of `agent`. -/
def dispatchToolCalls : List ToolCall → Except PyError (List (String × ToolResult))
  | [] => .ok []
  | t :: rest => do
      let r ← callTool t.name t.args
      let rs ← dispatchToolCalls rest
      pure ((t.name, r) :: rs)

/-- The behavior the spec claims of the dispatch (§4.2): every model-issued
tool-call batch comes back to the model as values — a result or a structured
tool error — rather than raising. -/
def dispatch_returns_to_model (calls : List ToolCall) : Prop :=
  ∃ rs, dispatchToolCalls calls = .ok rs

/-! ## Agent-mode schema retry (google.py 42-64, 105-112) -/

/-- The provider-side behavior of one enrichment conversation: the assistant
text that ends the agent tool loop, and the reply text the model would give
to a follow-up `generate(prompt)` call. -/
structure ModelBehavior where
  agentFinalText : String
  generateReply : String → String

/-- `generate` (google.py 42-64), observed through schema validation: the
reply either validates (and is returned normalized) or `generate` returns
`None`.  `validate` stands for `format.model_validate_json(...).model_dump_json()`,
returning `none` exactly on `ValidationError`. -/
def generate (validate : String → Option String) (b : ModelBehavior)
    (prompt : String) : Option String :=
  validate (b.generateReply prompt)

/-- The literal regeneration prompt of google.py line 112. -/
def regeneration_prompt : String :=
  "Regenerate job summary in JSON format, strictly follow the schema"

/-- The tail of `agent` (google.py 105-112): validate the final assistant
text; on `ValidationError` fall back to a single `generate` call with the
regeneration prompt.  The second component counts how many `generate`
retries were performed. -/
def agent_finalize (validate : String → Option String) (b : ModelBehavior) :
    Option String × Nat :=
  match validate b.agentFinalText with
  | some out => (some out, 0)
  | none => (generate validate b regeneration_prompt, 1)

/-! ## Enrichment run and webhook delivery (search.py 298-463) -/

/-- A crawled job record.  The claims only track records through the
pipeline, so only the identifying field is carried. -/
structure RawJob where
  job_id : String
  deriving Repr, DecidableEq

/-- What the LLM produced for one job: `provider.agent(...)` for the summary
and `provider.generate(...)` for the cover letter, each `None` exactly when
schema validation failed repeatedly. -/
structure AgentOutcome where
  job_summary : Option String
  cover_letter : Option String
  deriving Repr, DecidableEq

/-- An `AIProcessedJobResult` that passed pydantic validation. -/
structure ProcessedJob where
  job : RawJob
  job_summary : String
  cover_letter : String
  deriving Repr, DecidableEq

/-- `AIProcessedJobResult(**job, job_summary=..., cover_letter=...)`
(search.py 453-457 with schemas/task.py 33-36): both AI fields are declared
as required `str`, so pydantic raises a validation error when either is
`None`. -/
def mkAIProcessedJobResult (job : RawJob) (summary cover : Option String) :
    Except PyError ProcessedJob :=
  match summary, cover with
  | some s, some c => .ok ⟨job, s, c⟩
  | _, _ => .error .validationError

/-- `SearchPipeline._process_job_with_ai` (search.py 374-457), observed
through the given per-job LLM outcome. -/
def process_job_with_ai (job : RawJob) (o : AgentOutcome) :
    Except PyError ProcessedJob :=
  mkAIProcessedJobResult job o.job_summary o.cover_letter

/-- The enrichment loop of `SearchPipeline.run` (search.py 320-325):
`for job in self._crawl(): ...; jobs.append(self._process_job_with_ai(job))`.
An exception in any iteration propagates and aborts the whole loop. -/
def pipeline_run_collect :
    List (RawJob × AgentOutcome) → Except PyError (List ProcessedJob)
  | [] => .ok []
  | (j, o) :: rest => do
      let p ← process_job_with_ai j o
      let ps ← pipeline_run_collect rest
      pure (p :: ps)

/-- `SearchPipeline._handle_search_task` (search.py 459-463): POST each
record to the webhook in order, then `raise_for_status()`, which raises
exactly on a 4xx/5xx status.  Returns the records actually POSTed (each at
most once) and the exception that aborted the loop, if any. -/
def handle_search_task (webhookStatus : ProcessedJob → Nat) :
    List ProcessedJob → List ProcessedJob × Option PyError
  | [] => ([], none)
  | p :: rest =>
      if 400 ≤ webhookStatus p ∧ webhookStatus p < 600 then
        ([p], some (.httpError (webhookStatus p)))
      else
        let r := handle_search_task webhookStatus rest
        (p :: r.1, r.2)

/-- `SearchPipeline.run` (search.py 320-327): enrich every crawled job, then
deliver; an exception during enrichment skips delivery entirely.  Returns
the records POSTed to the webhook and the exception that escaped `run`, if
any. -/
def pipeline_run (jobs : List (RawJob × AgentOutcome))
    (webhookStatus : ProcessedJob → Nat) : List ProcessedJob × Option PyError :=
  match pipeline_run_collect jobs with
  | .error e => ([], some e)
  | .ok ps => handle_search_task webhookStatus ps

/-! ## Crawler (linkedin_api_spider.py 17-88) -/

/-- `int(max_jobs) if max_jobs else 20` (linkedin_api_spider.py 22): a falsy
`max_jobs` — 0 — silently becomes 20. -/
def initMaxJobs (max_jobs : Nat) : Nat := if max_jobs = 0 then 20 else max_jobs

/-- `job_urn.split(':')[-1]` (linkedin_api_spider.py 70): the text after the
last colon (the whole string when there is no colon). -/
def splitColonLast (urn : String) : String :=
  ⟨(List.foldl (fun cur c => if c = ':' then [] else cur ++ [c]) [] urn.data)⟩

/-- The badge loop of `parse_search` (linkedin_api_spider.py 60-77): walk the
job badges of one search-results page; before each badge, stop if the
counter reached `max_jobs`; a badge with a `data-entity-urn` yields a
detail-page request for the urn's last `:`-component and increments the
counter.  Returns the new counter and the job ids of the yielded detail
requests, in order (scheduler-level request deduplication happens later,
in `crawler_emitted`). -/
def parsePage (max_jobs : Nat) : Nat → List (Option String) → Nat × List String
  | found, [] => (found, [])
  | found, badge :: rest =>
      if max_jobs ≤ found then (found, [])
      else
        match badge with
        | none => parsePage max_jobs found rest
        | some urn =>
            let r := parsePage max_jobs (found + 1) rest
            (r.1, splitColonLast urn :: r.2)

/-- The page recursion of `parse_search` (linkedin_api_spider.py 49-88) over
the sequence of search responses the spider receives: `none` models a
response with an empty body (end of results, the spider returns); after a
page, pagination continues exactly while the counter is below `max_jobs`
(a pagination request the scheduler drops as a duplicate simply produces no
further response, i.e. the page list ends).  Returns the job ids of all
detail-page requests yielded during the run, in order, duplicates
included — the counter counts yielded requests, not scraped items. -/
def crawl_pages (max_jobs : Nat) :
    Nat → List (Option (List (Option String))) → List String
  | _, [] => []
  | _, none :: _ => []
  | found, some badges :: rest =>
      let r := parsePage max_jobs found badges
      if r.1 < max_jobs then r.2 ++ crawl_pages max_jobs r.1 rest else r.2

/-- Scrapy's default scheduler deduplication (`RFPDupeFilter`), as seen by
the detail requests of one run: the spider yields them without
`dont_filter`, their fingerprint is determined by the URL
`base_job_url + job_id`, and the scheduler keeps only the first request per
fingerprint.  `seen` is the set of fingerprints already recorded. -/
def rfpDedupAux : List String → List String → List String
  | _, [] => []
  | seen, x :: xs =>
      if x ∈ seen then rfpDedupAux seen xs
      else x :: rfpDedupAux (x :: seen) xs

/-- The `RawJob`s emitted by one `LinkedInSpider` run constructed with
`max_jobs` and receiving the given search responses, identified by
`job_id`: `parse_job` (linkedin_api_spider.py 90-108) yields exactly one
item per detail response, and the scheduler delivers at most one detail
response per distinct `job_id` (`RFPDupeFilter` on the detail URL). -/
def crawler_emitted (max_jobs : Nat)
    (pages : List (Option (List (Option String)))) : List String :=
  rfpDedupAux [] (crawl_pages (initMaxJobs max_jobs) 0 pages)

/-! ## Provider construction (llm/__init__.py, ollama.py, google.py 13-21,
search.py 309-315) -/

/-- The `@abstractmethod` names declared by the `LLM` base class
(llm/__init__.py 17-27). -/
def LLM_abstract_methods : List String := ["clear_history", "generate", "agent"]

/-- Methods `GoogleAIProvider` defines over the base class (google.py):
all three abstract methods are implemented. -/
def GoogleAIProvider_methods : List String := ["clear_history", "generate", "agent"]

/-- Methods `OllamaProvider` defines over the base class (ollama.py 8-31):
only `generate`. -/
def OllamaProvider_methods : List String := ["generate"]

/-- The abstract methods a subclass leaves unimplemented. -/
def abstractRemaining (defined : List String) : List String :=
  LLM_abstract_methods.filter (fun m => decide (¬ m ∈ defined))

/-- Python ABC instantiation: creating an instance of a class that still has
abstract methods raises `TypeError` before `__init__` runs. -/
def instantiateProvider (defined : List String) : Except PyError Unit :=
  if abstractRemaining defined = [] then .ok ()
  else .error (.typeError "abstract class")

/-- The provider selection of `SearchPipeline.__init__` (search.py 309-315),
together with the constructors it triggers: `provider.lower()` is compared
with `"google"` and `"ollama"`; the google constructor additionally requires
a non-empty API key (google.py 16-17); any other name raises `ValueError`. -/
def searchPipeline_init (provider api_key : String) : Except PyError String :=
  if lowerStr provider = "google" then do
    let _ ← instantiateProvider GoogleAIProvider_methods
    if api_key = "" then .error (.valueError "Google AI API key is required")
    else .ok "google"
  else if lowerStr provider = "ollama" then do
    let _ ← instantiateProvider OllamaProvider_methods
    .ok "ollama"
  else .error (.valueError ("Unsupported AI provider: " ++ provider))

/-- `run_search_pipeline` (search.py 466-475): construct the pipeline —
which builds the LLM client — then crawl, enrich and deliver. -/
def run_search_pipeline (provider api_key : String)
    (jobs : List (RawJob × AgentOutcome))
    (webhookStatus : ProcessedJob → Nat) :
    Except PyError (List ProcessedJob × Option PyError) := do
  let _ ← searchPipeline_init provider api_key
  pure (pipeline_run jobs webhookStatus)

/-! ## Helper lemmas -/

theorem skillsLoop_foldl (cand job : List String) (n : Nat) :
    List.foldl (fun score skill => if skill ∈ cand then score + 1 else score) n job
      = n + job.countP (fun s => decide (s ∈ cand)) := by
  induction job generalizing n with
  | nil => simp
  | cons a l ih =>
      simp only [List.foldl_cons, List.countP_cons, ih, decide_eq_true_eq]
      split_ifs with h <;> omega

theorem skillsLoop_eq_countP (cand job : List String) :
    skillsLoop cand job = job.countP (fun s => decide (s ∈ cand)) := by
  simpa using skillsLoop_foldl cand job 0

/-! ## C1: skills score -/

/-- C1 counterexample: on `candidate_skills = ["Python"]`,
`job_skills = ["python"]` the code scores 0 — membership is case-sensitive —
while the claimed case-insensitive fraction is 100; and on an empty
`job_skills` the code raises `ZeroDivisionError` instead of returning the
claimed 100. -/
theorem C1_counterexample :
    calculate_skills_score ["Python"] ["python"] = .ok 0
    ∧ skills_score_spec ["Python"] ["python"] = 100
    ∧ calculate_skills_score ["Python"] [] = .error .zeroDivisionError
    ∧ skills_score_spec ["Python"] [] = 100 := by
  refine ⟨?_, ?_, ?_, ?_⟩
  · norm_num [calculate_skills_score, skillsLoop]
    decide
  · norm_num [skills_score_spec]
    decide
  · norm_num [calculate_skills_score]
  · norm_num [skills_score_spec]

/-- C1 (amended): for every candidate_skills and job_skills list,
`calculate_skills_score` returns the fraction of job_skills present
case-sensitively (exact string equality) in candidate_skills, multiplied
by 100; if job_skills is empty it raises ZeroDivisionError, and if
candidate_skills is empty and job_skills is non-empty the result is 0. -/
theorem C1_skills_score_amended (candidate_skills job_skills : List String) :
    (job_skills = [] →
      calculate_skills_score candidate_skills job_skills
        = .error .zeroDivisionError)
    ∧ (job_skills ≠ [] →
      calculate_skills_score candidate_skills job_skills
        = .ok (((job_skills.countP (fun s => decide (s ∈ candidate_skills))) : ℚ)
            / job_skills.length * 100))
    ∧ (candidate_skills = [] → job_skills ≠ [] →
      calculate_skills_score candidate_skills job_skills = .ok 0) := by
  refine ⟨?_, ?_, ?_⟩
  · rintro rfl
    simp [calculate_skills_score]
  · intro h
    rw [calculate_skills_score, skillsLoop_eq_countP]
    simp [List.length_eq_zero, h]
  · rintro rfl h
    rw [calculate_skills_score, skillsLoop_eq_countP]
    simp [List.length_eq_zero, h]

/-- C1 witness: the amended theorem evaluated at concrete inputs. -/
theorem C1_skills_score_amended_witness :
    calculate_skills_score [] ["sql"] = .ok 0
    ∧ calculate_skills_score ["sql"] [] = .error .zeroDivisionError := by
  exact ⟨(C1_skills_score_amended [] ["sql"]).2.2 rfl (by decide),
    (C1_skills_score_amended ["sql"] []).1 rfl⟩

/-! ## C2: overall score -/

/-- C2 counterexample: on scores `{skills: 1, others: 0}` the code returns
the float 0.3, while the claimed rounded value is the integer 0. -/
theorem C2_counterexample :
    calculate_overall_score ⟨1, 0, 0, 0, 0, 0⟩ = 3/10
    ∧ (overall_score_spec ⟨1, 0, 0, 0, 0, 0⟩ : ℚ) = 0
    ∧ (3/10 : ℚ) ≠ 0 := by
  refine ⟨?_, ?_, by norm_num⟩
  · norm_num [calculate_overall_score, weights, scoresItem]
  · norm_num [overall_score_spec]

/-- C2 (amended): for every scores record with the six component fields,
`calculate_overall_score` returns the exact weighted sum with fixed weights
{skills: 0.3, education: 0.1, experience: 0.3, location: 0.05,
industries: 0.05, languages: 0.2}, as a float, with no rounding to the
nearest integer. -/
theorem C2_overall_score_amended (scores : ScoresDict) :
    calculate_overall_score scores
      = (3/10 : ℚ) * scores.skills + (1/10 : ℚ) * scores.education
        + (3/10 : ℚ) * scores.experience + (1/20 : ℚ) * scores.location
        + (1/20 : ℚ) * scores.industries + (1/5 : ℚ) * scores.languages := by
  simp [calculate_overall_score, weights, scoresItem]
  ring

/-! ## C9: experience score -/

/-- C9: for all non-negative candidate and job month counts,
`calculate_experience_score` returns min(candidate/job, 1) * 100, and
returns 100 when the job requirement is 0 months. -/
theorem C9_experience_score (candidate_months job_months : ℚ)
    (hc : 0 ≤ candidate_months) (hj : 0 ≤ job_months) :
    (job_months = 0 →
      calculate_experience_score candidate_months job_months = .ok 100)
    ∧ (job_months ≠ 0 →
      calculate_experience_score candidate_months job_months
        = .ok (min (candidate_months / job_months) 1 * 100)) := by
  constructor
  · rintro rfl
    simp [calculate_experience_score, not_lt.mpr hc]
  · intro h
    have hj' : 0 < job_months := lt_of_le_of_ne hj (Ne.symm h)
    rw [calculate_experience_score]
    by_cases hlt : candidate_months < job_months
    · rw [if_pos hlt, if_neg h]
      have h1 : candidate_months / job_months < 1 := (div_lt_one hj').mpr hlt
      rw [min_eq_left (le_of_lt h1)]
    · rw [if_neg hlt]
      have h1 : 1 ≤ candidate_months / job_months :=
        (one_le_div hj').mpr (not_lt.mp hlt)
      rw [min_eq_right h1, one_mul]

/-- C9 witness: the theorem evaluated at (3, 0) and (3, 6). -/
theorem C9_experience_score_witness :
    calculate_experience_score 3 0 = .ok 100
    ∧ calculate_experience_score 3 6 = .ok 50 := by
  constructor
  · exact (C9_experience_score 3 0 (by norm_num) (by norm_num)).1 rfl
  · rw [(C9_experience_score 3 6 (by norm_num) (by norm_num)).2 (by norm_num)]
    norm_num [min_def]

/-! ## C8: languages score -/

theorem sum_map_ite_filter (f : String → Int) (p : String → Prop)
    [DecidablePred p] (l : List String) :
    (l.map (fun k => if p k then f k else 0)).sum
      = ((l.filter (fun k => decide (p k))).map f).sum := by
  induction l with
  | nil => simp
  | cons a t ih => by_cases h : p a <;> simp [h, ih]

theorem filter_mem_perm (c j : List String) (hc : c.Nodup) (hj : j.Nodup) :
    (c.filter (fun k => decide (k ∈ j))).Perm
      (j.filter (fun k => decide (k ∈ c))) := by
  rw [List.perm_ext_iff_of_nodup (hc.filter _) (hj.filter _)]
  intro a
  simp only [List.mem_filter, decide_eq_true_eq]
  exact and_comm

/-- C8: for every candidate and job language map (with the distinct keys of
a Python dict), `calculate_languages_score` computes 100 - |cand - job|
for each language present in both maps and returns the arithmetic mean over
the job-language key set — required languages absent from the candidate
contribute 0 via the denominator — and returns 100 whenever the job
language map is empty. -/
theorem C8_languages_score (candidate_languages job_languages : PyDict)
    (hc : (dictKeys candidate_languages).Nodup)
    (hj : (dictKeys job_languages).Nodup) :
    (job_languages = [] →
      calculate_languages_score candidate_languages job_languages = 100)
    ∧ (job_languages ≠ [] →
      calculate_languages_score candidate_languages job_languages
        = ((((dictKeys job_languages).map (fun k =>
              if k ∈ dictKeys candidate_languages
              then 100 - |dictGet candidate_languages k - dictGet job_languages k|
              else 0)).sum : Int) : ℚ)
          / ((dictKeys job_languages).length : ℚ)) := by
  constructor
  · rintro rfl
    simp [calculate_languages_score, dictKeys]
  · intro h
    have hlen : 0 < (dictKeys job_languages).length := by
      rcases job_languages with _ | ⟨p, t⟩
      · exact absurd rfl h
      · simp [dictKeys]
    rw [calculate_languages_score]
    simp only [hlen, if_pos]
    congr 1
    rw [sum_map_ite_filter
      (fun k => 100 - |dictGet candidate_languages k - dictGet job_languages k|)
      (fun k => k ∈ dictKeys candidate_languages)]
    exact congrArg Int.cast (List.Perm.sum_eq (List.Perm.map _
      (filter_mem_perm _ _ hc hj)))

/-- C8 witness: the theorem evaluated on concrete language maps. -/
theorem C8_languages_score_witness :
    calculate_languages_score [("english", 60)] [] = 100
    ∧ calculate_languages_score [("english", 60)]
        [("english", 100), ("german", 45)] = 30 := by
  constructor
  · exact (C8_languages_score [("english", 60)] [] (by decide) (by decide)).1 rfl
  · rw [(C8_languages_score [("english", 60)] [("english", 100), ("german", 45)]
      (by decide) (by decide)).2 (by decide)]
    have h4 : (((dictKeys [("english", 100), ("german", 45)]).map (fun k =>
        if k ∈ dictKeys [("english", 60)]
        then 100 - |dictGet [("english", 60)] k
              - dictGet [("english", 100), ("german", 45)] k|
        else 0)).sum : Int) = 60 := by decide
    rw [h4]
    norm_num [dictKeys]

/-! ## C3: tool-call validation and dispatch -/

theorem except_bind_ok {α β : Type} (a : α) (f : α → Except PyError β) :
    (Except.ok a >>= f) = f a := rfl

theorem except_bind_error {α β : Type} (e : PyError) (f : α → Except PyError β) :
    (Except.error e >>= f) = Except.error e := rfl

/-- C3 counterexample: the model calls `calculate_month_between` with the
malformed date `"2023"`; the dispatch raises `ValueError` out of the agent
loop instead of returning a structured tool error to the model. -/
theorem C3_counterexample :
    dispatchToolCalls
        [⟨"calculate_month_between", .monthBetween "2023" "2024-01"⟩]
      = .error (.valueError
          "Invalid date format. Expected YYYY-MM, got: 2023 and 2024-01")
    ∧ ¬ dispatch_returns_to_model
        [⟨"calculate_month_between", .monthBetween "2023" "2024-01"⟩] := by
  refine ⟨rfl, ?_⟩
  rintro ⟨rs, h⟩
  have h2 : (Except.error
      (.valueError "Invalid date format. Expected YYYY-MM, got: 2023 and 2024-01")
      : Except PyError (List (String × ToolResult))) = .ok rs := h
  exact Except.noConfusion h2

/-- C3 (amended): the client performs no validation of a model-issued tool
call: it looks the name up in `callable_tools` and calls the function
directly, so an unknown tool name raises `KeyError` and a malformed date
passed to `calculate_month_between` raises `ValueError`, both propagating
out of the agent loop (the remaining requested calls are not dispatched)
instead of being returned to the model as a structured error. -/
theorem C3_amended (name : String) (args : ToolArgs) (s e : String)
    (rest rest2 : List ToolCall)
    (hname : ¬ name ∈ callable_tools_names)
    (hs : parseYearMonth s = none) :
    dispatchToolCalls (⟨name, args⟩ :: rest) = .error (.keyError name)
    ∧ dispatchToolCalls (⟨"calculate_month_between", .monthBetween s e⟩ :: rest2)
      = .error (.valueError ("Invalid date format. Expected YYYY-MM, got: "
          ++ s ++ " and " ++ e)) := by
  simp only [callable_tools_names, List.mem_cons, List.not_mem_nil, or_false,
    not_or] at hname
  obtain ⟨h1, h2, h3, h4, h5, h6⟩ := hname
  constructor
  · simp [dispatchToolCalls, callTool, h1, h2, h3, h4, h5, h6, except_bind_error]
  · simp [dispatchToolCalls, callTool, calculate_month_between, hs,
      Except.map, except_bind_error]

/-- C3 witness: the amended theorem at an unknown tool name and at the
malformed date `"2023"`. -/
theorem C3_amended_witness :
    dispatchToolCalls [⟨"frobnicate", .monthBetween "2020-01" "2020-02"⟩]
      = .error (.keyError "frobnicate")
    ∧ dispatchToolCalls
        [⟨"calculate_month_between", .monthBetween "2023" "2024-01"⟩]
      = .error (.valueError
          "Invalid date format. Expected YYYY-MM, got: 2023 and 2024-01") := by
  have h := C3_amended "frobnicate" (.monthBetween "2020-01" "2020-02")
    "2023" "2024-01" [] [] (by decide) (by decide)
  exact ⟨h.1, h.2⟩

/-! ## C7: single schema-regeneration retry in agent mode -/

/-- C7: in agent mode, if the final assistant text fails schema validation,
the client performs exactly one retry through `generate` with the
regeneration instruction, returns `None` when that retry's reply also fails
validation, and never retries more than once in one agent call. -/
theorem C7_agent_single_retry (validate : String → Option String)
    (b : ModelBehavior) :
    (agent_finalize validate b).2 ≤ 1
    ∧ (∀ out, validate b.agentFinalText = some out →
        agent_finalize validate b = (some out, 0))
    ∧ (validate b.agentFinalText = none →
        agent_finalize validate b
          = (validate (b.generateReply regeneration_prompt), 1))
    ∧ (validate b.agentFinalText = none →
        validate (b.generateReply regeneration_prompt) = none →
        (agent_finalize validate b).1 = none) := by
  rcases h : validate b.agentFinalText with _ | out <;>
    simp [agent_finalize, generate, h]

/-- C7 witness: with a validator that rejects everything, the agent call
performs one retry and returns none. -/
theorem C7_agent_single_retry_witness :
    agent_finalize (fun _ => none) ⟨"bad", fun _ => "still bad"⟩ = (none, 1) := by
  simpa using
    (C7_agent_single_retry (fun _ => none) ⟨"bad", fun _ => "still bad"⟩).2.2.1 rfl

/-! ## C4: enrichment failure handling -/

theorem process_job_with_ai_none (j : RawJob) (cl : Option String) :
    process_job_with_ai j ⟨none, cl⟩ = .error .validationError := by
  cases cl <;> rfl

theorem process_job_with_ai_cases (j : RawJob) (o : AgentOutcome) :
    (∃ p, process_job_with_ai j o = .ok p)
    ∨ process_job_with_ai j o = .error .validationError := by
  rcases o with ⟨s, c⟩
  cases s <;> cases c <;> simp [process_job_with_ai, mkAIProcessedJobResult]

theorem pipeline_run_collect_bad (pre : List (RawJob × AgentOutcome))
    (j : RawJob) (cl : Option String) (post : List (RawJob × AgentOutcome)) :
    pipeline_run_collect (pre ++ (j, ⟨none, cl⟩) :: post)
      = .error .validationError := by
  induction pre with
  | nil =>
      simp [pipeline_run_collect, process_job_with_ai_none, except_bind_error]
  | cons hd t ih =>
      obtain ⟨jh, oh⟩ := hd
      rcases process_job_with_ai_cases jh oh with ⟨p, hp⟩ | hp <;>
        simp [pipeline_run_collect, hp, except_bind_ok, except_bind_error, ih]

/-- The two jobs of the C4 scenario: the first job's agent call returned
`None`, the second enriched fine. -/
def C4_jobs : List (RawJob × AgentOutcome) :=
  [(⟨"job-1"⟩, ⟨none, some "cover-1"⟩),
   (⟨"job-2"⟩, ⟨some "summary-2", some "cover-2"⟩)]

/-- C4 counterexample: with the first job's agent summary `None` and a
webhook answering 200, the run aborts with a pydantic validation error:
the remaining (fully enriched) job is never processed or delivered, so the
run does not "continue with the remaining jobs". -/
theorem C4_counterexample :
    pipeline_run C4_jobs (fun _ => 200) = ([], some .validationError)
    ∧ ¬ (⟨⟨"job-2"⟩, "summary-2", "cover-2"⟩ : ProcessedJob) ∈
        (pipeline_run C4_jobs (fun _ => 200)).1 := by
  refine ⟨rfl, ?_⟩
  intro hmem
  have h0 : (pipeline_run C4_jobs (fun _ => 200)).1 = [] := rfl
  rw [h0] at hmem
  exact List.not_mem_nil _ hmem

/-- C4 (amended): if the agent-mode job-summary invocation returns `None`
for any job of the run, `AIProcessedJobResult` validation raises; the
exception propagates out of `run()`, so the run aborts at that job — no
enrichment failure is recorded, the remaining jobs are not processed, and
nothing (neither the partial record nor any other record of the run) is
delivered to the webhook. -/
theorem C4_enrichment_failure_amended (pre post : List (RawJob × AgentOutcome))
    (j : RawJob) (cl : Option String) (webhookStatus : ProcessedJob → Nat) :
    pipeline_run (pre ++ (j, ⟨none, cl⟩) :: post) webhookStatus
      = ([], some .validationError) := by
  simp [pipeline_run, pipeline_run_collect_bad]

/-! ## C5: webhook delivery -/

/-- Two delivered records for the C5 scenario. -/
def C5_a : ProcessedJob := ⟨⟨"job-a"⟩, "summary-a", "cover-a"⟩

/-- Second delivered record for the C5 scenario. -/
def C5_b : ProcessedJob := ⟨⟨"job-b"⟩, "summary-b", "cover-b"⟩

/-- The webhook of the C5 scenario: 500 for `job-a`, 200 otherwise. -/
def C5_wh : ProcessedJob → Nat := fun p => if p.job.job_id = "job-a" then 500 else 200

/-- C5 counterexample: the webhook answers 500 for the first job; the
delivery loop posts it exactly once (no retry), raises, and the second job
is never posted — one failed delivery aborts the rest of the run's
deliveries. -/
theorem C5_counterexample :
    handle_search_task C5_wh [C5_a, C5_b] = ([C5_a], some (.httpError 500))
    ∧ ¬ C5_b ∈ (handle_search_task C5_wh [C5_a, C5_b]).1 := by
  refine ⟨rfl, ?_⟩
  intro hmem
  have h0 : (handle_search_task C5_wh [C5_a, C5_b]).1 = [C5_a] := rfl
  rw [h0] at hmem
  rw [List.mem_singleton] at hmem
  exact absurd hmem (by decide)

/-- C5 (amended): each record is posted at most once — there is no retry of
any kind — and `raise_for_status` raises on the first 4xx/5xx response,
which aborts the loop: every record before the first failing one is posted
exactly once, the failing one is posted once, and no later record of the
run is posted at all. -/
theorem C5_webhook_amended (webhookStatus : ProcessedJob → Nat)
    (pre : List ProcessedJob) (p : ProcessedJob) (post : List ProcessedJob)
    (hpre : ∀ q ∈ pre, ¬ (400 ≤ webhookStatus q ∧ webhookStatus q < 600))
    (hp : 400 ≤ webhookStatus p ∧ webhookStatus p < 600) :
    handle_search_task webhookStatus (pre ++ p :: post)
      = (pre ++ [p], some (.httpError (webhookStatus p))) := by
  revert hpre
  induction pre with
  | nil =>
      intro _
      simp [handle_search_task, hp]
  | cons q t ih =>
      intro hpre
      have hq := hpre q (by simp)
      have ht : ∀ r ∈ t, ¬ (400 ≤ webhookStatus r ∧ webhookStatus r < 600) :=
        fun r hr => hpre r (by simp [hr])
      simp [handle_search_task, hq, ih ht]

/-- C5 witness: the amended theorem with a succeeding then a failing post. -/
theorem C5_webhook_amended_witness :
    handle_search_task C5_wh [C5_b, C5_a]
      = ([C5_b, C5_a], some (.httpError 500)) := by
  have h := C5_webhook_amended C5_wh [C5_b] C5_a []
    (by intro q hq; rw [List.mem_singleton] at hq; subst hq; decide)
    (by decide)
  simpa using h

/-! ## C6: crawler bound and duplicates -/

theorem parsePage_spec (m : Nat) (badges : List (Option String)) :
    ∀ found, (parsePage m found badges).1
        = found + (parsePage m found badges).2.length
      ∧ (found ≤ m → (parsePage m found badges).1 ≤ m) := by
  induction badges with
  | nil =>
      intro found
      simp [parsePage]
  | cons b rest ih =>
      intro found
      by_cases hf : m ≤ found
      · simp [parsePage, hf]
      · cases b with
        | none =>
            simpa [parsePage, hf] using ih found
        | some urn =>
            have h := ih (found + 1)
            simp only [parsePage, if_neg hf, List.length_cons]
            constructor
            · omega
            · intro hm
              exact h.2 (by omega)

theorem crawl_pages_len (m : Nat)
    (pages : List (Option (List (Option String)))) :
    ∀ found, found ≤ m → found + (crawl_pages m found pages).length ≤ m := by
  induction pages with
  | nil =>
      intro found hf
      simpa [crawl_pages] using hf
  | cons pg rest ih =>
      intro found hf
      cases pg with
      | none => simpa [crawl_pages] using hf
      | some badges =>
          have h := parsePage_spec m badges found
          simp only [crawl_pages]
          by_cases hlt : (parsePage m found badges).1 < m
          · rw [if_pos hlt]
            have h2 := ih (parsePage m found badges).1 (Nat.le_of_lt hlt)
            simp only [List.length_append]
            omega
          · rw [if_neg hlt]
            have h2 := h.2 hf
            omega

theorem rfpDedupAux_length (l : List String) :
    ∀ seen, (rfpDedupAux seen l).length ≤ l.length := by
  induction l with
  | nil =>
      intro seen
      simp [rfpDedupAux]
  | cons a t ih =>
      intro seen
      by_cases h : a ∈ seen
      · simp only [rfpDedupAux, if_pos h, List.length_cons]
        exact Nat.le_succ_of_le (ih seen)
      · simp only [rfpDedupAux, if_neg h, List.length_cons]
        exact Nat.succ_le_succ (ih (a :: seen))

theorem rfpDedupAux_nodup (l : List String) :
    ∀ seen, (rfpDedupAux seen l).Nodup
      ∧ ∀ x ∈ rfpDedupAux seen l, ¬ x ∈ seen := by
  induction l with
  | nil =>
      intro seen
      simp [rfpDedupAux]
  | cons a t ih =>
      intro seen
      by_cases h : a ∈ seen
      · simpa [rfpDedupAux, h] using ih seen
      · obtain ⟨hnd, hmem⟩ := ih (a :: seen)
        simp only [rfpDedupAux, if_neg h]
        constructor
        · refine List.nodup_cons.mpr ⟨?_, hnd⟩
          intro hx
          exact hmem a hx (List.mem_cons_self a _)
        · intro x hx
          rcases List.mem_cons.mp hx with rfl | hx2
          · exact h
          · exact fun hxs => hmem x hx2 (List.mem_cons_of_mem _ hxs)

/-- C6 counterexample: with `max_jobs = 0`, `int(max_jobs) if max_jobs else 20`
(linkedin_api_spider.py 22) turns the cap into 20, so a job IS emitted,
against the claimed "with max_jobs = 0 no jobs are emitted" (and its length
bound 0). -/
theorem C6_counterexample :
    crawler_emitted 0 [some [some "urn:li:jobPosting:1"]] = ["1"]
    ∧ ¬ (crawler_emitted 0 [some [some "urn:li:jobPosting:1"]]).length ≤ 0 := by
  exact ⟨rfl, by decide⟩

/-- C6 (amended): for every run, the sequence of `RawJob`s emitted by the
crawler contains no duplicate `job_id`s (Scrapy's default request
deduplication drops a repeated detail URL, so at most one item is scraped
per `job_id`) and has length at most the effective cap
`int(max_jobs) if max_jobs else 20` — at most `max_jobs` when
`max_jobs > 0`, but up to 20 (not 0) when `max_jobs = 0`. -/
theorem C6_crawler_amended (max_jobs : Nat)
    (pages : List (Option (List (Option String)))) :
    (crawler_emitted max_jobs pages).Nodup
    ∧ (crawler_emitted max_jobs pages).length ≤ initMaxJobs max_jobs := by
  constructor
  · exact (rfpDedupAux_nodup (crawl_pages (initMaxJobs max_jobs) 0 pages) []).1
  · have h1 := rfpDedupAux_length (crawl_pages (initMaxJobs max_jobs) 0 pages) []
    have h2 := crawl_pages_len (initMaxJobs max_jobs) pages 0 (Nat.zero_le _)
    simp only [crawler_emitted]
    omega

/-! ## C10: the ollama provider cannot be constructed -/

/-- C10: for every submitted search with provider "ollama", building the
pipeline's LLM client raises at construction time (`OllamaProvider` leaves
the abstract methods `clear_history` and `agent` of the `LLM` base class
unimplemented), so no ollama run ever reaches the crawling or enrichment
stages. -/
theorem C10_ollama_construction (api_key : String)
    (jobs : List (RawJob × AgentOutcome)) (webhookStatus : ProcessedJob → Nat) :
    abstractRemaining OllamaProvider_methods = ["clear_history", "agent"]
    ∧ searchPipeline_init "ollama" api_key = .error (.typeError "abstract class")
    ∧ run_search_pipeline "ollama" api_key jobs webhookStatus
      = .error (.typeError "abstract class") := by
  exact ⟨by decide, rfl, rfl⟩

end FindAJob
